import Mathlib

/-!
Verification of the pricing engine of the olga-one-page-form repository.

The engine exists in two source variants: the current one (with the
extensionsEnabled gate, the abacus add-on and the Carrington waiver) and a
legacy one (add-ons always applied, no 2-day gate on the school discount,
full-year prepay discount of 50, no abacus).  Both are embedded below over
exact rational arithmetic; rounding to two decimal places (JavaScript
toFixed with 2 digits, on the nonnegative values the engine produces) is
modelled by `round2`.
-/

/-- Rounding to 2 decimal places, half away from zero on nonnegative values:
models `+x.toFixed(2)` from the source on the values the engine produces. -/
def round2 (q : ℚ) : ℚ := ((q * 100 + 1/2).floor : ℚ) / 100

/-- Number of days per week the child attends: the source union type of the
literals 1 to 5. -/
inductive DaysPerWeek
  | d1 | d2 | d3 | d4 | d5
deriving DecidableEq

/-- Numeric value of a `DaysPerWeek`. -/
def DaysPerWeek.toNat : DaysPerWeek → ℕ
  | .d1 => 1
  | .d2 => 2
  | .d3 => 3
  | .d4 => 4
  | .d5 => 5

instance : Fintype DaysPerWeek where
  elems := {.d1, .d2, .d3, .d4, .d5}
  complete := by intro x; cases x <;> simp

/-- Source type TimeBlock: the four blocks 4-6, 3-6, 4-7 and 3-7. -/
inductive TimeBlock
  | t4_6 | t3_6 | t4_7 | t3_7
deriving DecidableEq

instance : Fintype TimeBlock where
  elems := {.t4_6, .t3_6, .t4_7, .t3_7}
  complete := by intro x; cases x <;> simp

/-- Source type School: Searingtown or Other. -/
inductive School
  | Searingtown | Other
deriving DecidableEq

instance : Fintype School where
  elems := {.Searingtown, .Other}
  complete := by intro x; cases x <;> simp

/-- Source type BillingFrequency: weekly, monthly, 3months, 6months, year. -/
inductive BillingFrequency
  | weekly | monthly | threeMonths | sixMonths | year
deriving DecidableEq

instance : Fintype BillingFrequency where
  elems := {.weekly, .monthly, .threeMonths, .sixMonths, .year}
  complete := by intro x; cases x <;> simp

/-- Input of the current pricing engine (PricingInput in the source).  The
three optional booleans default to false at call sites; here they are
explicit. -/
structure PricingInput where
  daysPerWeek : DaysPerWeek
  timeBlock : TimeBlock
  school : School
  frequency : BillingFrequency
  extensionsEnabled : Bool
  abacusEnabled : Bool
  isCarrington : Bool
deriving DecidableEq

/-- Output record of the current engine (PricingBreakdown in the source). -/
structure PricingBreakdown where
  baseWeekly : ℚ
  addOnWeekly : ℚ
  abacusWeekly : ℚ
  schoolDiscountWeekly : ℚ
  prepayDiscountWeekly : ℚ
  finalWeekly : ℚ
  periodWeeks : ℚ
  registrationFee : ℚ
  totalForPeriod : ℚ
deriving DecidableEq

/-- The fixed base-price table baseWeeklyMap of the source (identical in both
variants). -/
def baseWeeklyMap : DaysPerWeek → ℚ
  | .d1 => 75
  | .d2 => 150
  | .d3 => 225
  | .d4 => 300
  | .d5 => 375

/-- Per-day surcharge addOnPerDay of the source (identical in both variants). -/
def addOnPerDay : TimeBlock → ℚ
  | .t3_7 => 50
  | .t3_6 => 30
  | .t4_7 => 30
  | .t4_6 => 0

/-- Weeks billed per period, periodWeeksFor of the source (identical in both
variants). -/
def periodWeeksFor : BillingFrequency → ℚ
  | .weekly => 1
  | .monthly => 4
  | .threeMonths => 12
  | .sixMonths => 24
  | .year => 40

/-- Prepay weekly discount prepayWeeklyDiscount of the current source variant:
monthly gives 10 at any day count; the longer frequencies require at least 3
days per week; the full-year rate equals the half-year rate of 40. -/
def prepayWeeklyDiscount (frequency : BillingFrequency) (daysPerWeek : DaysPerWeek) : ℚ :=
  if frequency = .monthly then 10
  else if ¬ (3 ≤ daysPerWeek.toNat) then 0
  else match frequency with
    | .threeMonths => 25
    | .sixMonths => 40
    | .year => 40
    | _ => 0

/-- The current pricing engine, calculatePrice of the source: base price,
gated extended-hours add-on, abacus weekly equivalent, Searingtown discount
gated at 2 or more days, prepay discount, clamp at zero, period total with
the one-time registration fee. -/
def calculatePrice (input : PricingInput) : PricingBreakdown :=
  let baseWeekly := baseWeeklyMap input.daysPerWeek
  let addOnWeekly :=
    (if input.extensionsEnabled then addOnPerDay input.timeBlock else 0) *
      (input.daysPerWeek.toNat : ℚ)
  let abacusWeekly := if input.abacusEnabled then round2 (350 / 4) else 0
  let subtotal := baseWeekly + addOnWeekly
  let eligibleForSchoolDiscount :=
    input.school = School.Searingtown ∧ 2 ≤ input.daysPerWeek.toNat
  let schoolDiscountWeekly :=
    if eligibleForSchoolDiscount then round2 (subtotal * (4/10)) else 0
  let prepayDiscountWeekly := prepayWeeklyDiscount input.frequency input.daysPerWeek
  let finalWeekly0 := (subtotal - schoolDiscountWeekly - prepayDiscountWeekly) + abacusWeekly
  let finalWeekly1 := if finalWeekly0 < 0 then 0 else finalWeekly0
  let finalWeekly := round2 finalWeekly1
  let periodWeeks := periodWeeksFor input.frequency
  let registrationFee := if input.abacusEnabled ∧ ¬ input.isCarrington then (90 : ℚ) else 0
  let totalForPeriod := round2 (finalWeekly * periodWeeks + registrationFee)
  { baseWeekly := baseWeekly
    addOnWeekly := addOnWeekly
    abacusWeekly := abacusWeekly
    schoolDiscountWeekly := schoolDiscountWeekly
    prepayDiscountWeekly := prepayDiscountWeekly
    finalWeekly := finalWeekly
    periodWeeks := periodWeeks
    registrationFee := registrationFee
    totalForPeriod := totalForPeriod }

namespace Legacy

/-- Input of the legacy engine variant: no extensions gate, no abacus, no
Carrington waiver. -/
structure PricingInput where
  daysPerWeek : DaysPerWeek
  timeBlock : TimeBlock
  school : School
  frequency : BillingFrequency
deriving DecidableEq

/-- Output record of the legacy engine variant. -/
structure PricingBreakdown where
  baseWeekly : ℚ
  addOnWeekly : ℚ
  schoolDiscountWeekly : ℚ
  prepayDiscountWeekly : ℚ
  finalWeekly : ℚ
  periodWeeks : ℚ
  totalForPeriod : ℚ
deriving DecidableEq

/-- Prepay weekly discount of the legacy source variant: identical to the
current one except that the full-year rate is 50. -/
def prepayWeeklyDiscount (frequency : BillingFrequency) (daysPerWeek : DaysPerWeek) : ℚ :=
  if frequency = .monthly then 10
  else if ¬ (3 ≤ daysPerWeek.toNat) then 0
  else match frequency with
    | .threeMonths => 25
    | .sixMonths => 40
    | .year => 50
    | _ => 0

/-- The legacy engine variant: add-ons always applied, school discount with
no day minimum, no abacus term, total without a registration fee. -/
def calculatePrice (input : PricingInput) : PricingBreakdown :=
  let baseWeekly := baseWeeklyMap input.daysPerWeek
  let addOnWeekly := addOnPerDay input.timeBlock * (input.daysPerWeek.toNat : ℚ)
  let subtotal := baseWeekly + addOnWeekly
  let schoolDiscountWeekly :=
    if input.school = School.Searingtown then round2 (subtotal * (4/10)) else 0
  let prepayDiscountWeekly := Legacy.prepayWeeklyDiscount input.frequency input.daysPerWeek
  let finalWeekly0 := subtotal - schoolDiscountWeekly - prepayDiscountWeekly
  let finalWeekly1 := if finalWeekly0 < 0 then 0 else finalWeekly0
  let finalWeekly := round2 finalWeekly1
  let periodWeeks := periodWeeksFor input.frequency
  let totalForPeriod := round2 (finalWeekly * periodWeeks)
  { baseWeekly := baseWeekly
    addOnWeekly := addOnWeekly
    schoolDiscountWeekly := schoolDiscountWeekly
    prepayDiscountWeekly := prepayDiscountWeekly
    finalWeekly := finalWeekly
    periodWeeks := periodWeeks
    totalForPeriod := totalForPeriod }

end Legacy

/-- C2: for every valid enrollment configuration, the finalWeekly field of
the breakdown returned by calculatePrice is greater than or equal to 0. -/
theorem calculatePrice_finalWeekly_nonneg :
    ∀ i : PricingInput, 0 ≤ (calculatePrice i).finalWeekly := by
  intro i
  rcases i with ⟨d, t, s, f, e, a, c⟩
  revert d t s f e a c
  decide!

/-- C1: for every valid enrollment configuration, calculatePrice returns
finalWeekly equal to max 0 of the core subtotal minus the two discounts,
with the abacus amount added after the clamp, rounded to 2 decimal places.
The clamp applies only to the core subtotal minus discounts, never to the
abacus amount. -/
theorem calculatePrice_finalWeekly_formula :
    ∀ i : PricingInput,
      (calculatePrice i).finalWeekly =
        round2 (max 0 (((calculatePrice i).baseWeekly + (calculatePrice i).addOnWeekly)
            - (calculatePrice i).schoolDiscountWeekly - (calculatePrice i).prepayDiscountWeekly)
          + (calculatePrice i).abacusWeekly) := by
  intro i
  rcases i with ⟨d, t, s, f, e, a, c⟩
  revert d t s f e a c
  decide!

/-- C3: for every valid enrollment configuration, the school discount equals
40 percent of baseWeekly plus addOnWeekly, rounded to 2 decimal places,
exactly when the school is Searingtown and daysPerWeek is at least 2, and is
0 in every other case; in particular a 1-day Searingtown enrollment gets no
school discount. -/
theorem calculatePrice_schoolDiscount_rule :
    ∀ i : PricingInput,
      (calculatePrice i).schoolDiscountWeekly =
        if i.school = School.Searingtown ∧ 2 ≤ i.daysPerWeek.toNat then
          round2 ((4/10) * ((calculatePrice i).baseWeekly + (calculatePrice i).addOnWeekly))
        else 0 := by
  intro i
  rcases i with ⟨d, t, s, f, e, a, c⟩
  revert d t s f e a c
  decide!

/-- C4: for every valid enrollment configuration, the prepay discount is
determined only by frequency and daysPerWeek: 10 for monthly at every day
count; 25 for 3 months, 40 for 6 months and 40 for year, each only when
daysPerWeek is at least 3 and 0 below that; and 0 for weekly. -/
theorem calculatePrice_prepayDiscount_rule :
    ∀ i : PricingInput,
      (calculatePrice i).prepayDiscountWeekly =
        match i.frequency with
        | .weekly => 0
        | .monthly => 10
        | .threeMonths => if 3 ≤ i.daysPerWeek.toNat then 25 else 0
        | .sixMonths => if 3 ≤ i.daysPerWeek.toNat then 40 else 0
        | .year => if 3 ≤ i.daysPerWeek.toNat then 40 else 0 := by
  intro i
  rcases i with ⟨d, t, s, f, e, a, c⟩
  revert d t s f e a c
  decide!

/-- C5: for every valid enrollment configuration with extensionsEnabled
false, addOnWeekly is 0 regardless of timeBlock; with extensionsEnabled
true it equals the per-day surcharge of the time block (0 for the standard
block 4-6, 30 for 3-6 and 4-7, 50 for 3-7) times daysPerWeek. -/
theorem calculatePrice_addOn_rule :
    ∀ i : PricingInput,
      (calculatePrice i).addOnWeekly =
        if i.extensionsEnabled then
          (match i.timeBlock with
            | .t4_6 => 0
            | .t3_6 => 30
            | .t4_7 => 30
            | .t3_7 => 50) * (i.daysPerWeek.toNat : ℚ)
        else 0 := by
  intro i
  rcases i with ⟨d, t, s, f, e, a, c⟩
  revert d t s f e a c
  decide!

/-- C6: for every valid enrollment configuration, periodWeeks is determined
solely by frequency through the fixed mapping weekly to 1, monthly to 4,
3 months to 12, 6 months to 24 and year to 40, and totalForPeriod equals
finalWeekly times periodWeeks plus registrationFee, rounded to 2 decimal
places. -/
theorem calculatePrice_periodWeeks_total :
    ∀ i : PricingInput,
      (calculatePrice i).periodWeeks =
        (match i.frequency with
          | .weekly => 1
          | .monthly => 4
          | .threeMonths => 12
          | .sixMonths => 24
          | .year => 40) ∧
      (calculatePrice i).totalForPeriod =
        round2 ((calculatePrice i).finalWeekly * (calculatePrice i).periodWeeks
          + (calculatePrice i).registrationFee) := by
  intro i
  rcases i with ⟨d, t, s, f, e, a, c⟩
  revert d t s f e a c
  decide!

/-- C7: for every valid enrollment configuration, registrationFee is 90
exactly when abacusEnabled is true and isCarrington is false and is 0
otherwise, and the fee enters totalForPeriod exactly once, not multiplied
by periodWeeks. -/
theorem calculatePrice_registrationFee_rule :
    ∀ i : PricingInput,
      (calculatePrice i).registrationFee =
        (if i.abacusEnabled = true ∧ i.isCarrington = false then 90 else 0) ∧
      (calculatePrice i).totalForPeriod =
        round2 ((calculatePrice i).finalWeekly * (calculatePrice i).periodWeeks
          + (calculatePrice i).registrationFee) := by
  intro i
  rcases i with ⟨d, t, s, f, e, a, c⟩
  revert d t s f e a c
  decide!

/-- C8: for every valid enrollment configuration, abacusWeekly is 350
divided by 4 rounded to 2 decimal places, which is 87.50, when abacusEnabled
is true, and 0 when it is false, independent of the other fields; and
neither abacusWeekly nor registrationFee is ever reduced by the school or
prepay discount, which enter only through the core subtotal. -/
theorem calculatePrice_abacus_rule :
    (round2 (350/4) = 875/10) ∧
    ∀ i : PricingInput,
      (calculatePrice i).abacusWeekly =
        (if i.abacusEnabled = true then round2 (350/4) else 0) ∧
      (calculatePrice i).finalWeekly =
        round2 (max 0 (((calculatePrice i).baseWeekly + (calculatePrice i).addOnWeekly)
            - (calculatePrice i).schoolDiscountWeekly - (calculatePrice i).prepayDiscountWeekly)
          + (calculatePrice i).abacusWeekly) ∧
      (calculatePrice i).totalForPeriod =
        round2 ((calculatePrice i).finalWeekly * (calculatePrice i).periodWeeks
          + (calculatePrice i).registrationFee) := by
  constructor
  · decide!
  · intro i
    rcases i with ⟨d, t, s, f, e, a, c⟩
    revert d t s f e a c
    decide!

/-- C9: for every valid enrollment configuration, baseWeekly equals 75 times
daysPerWeek, and with extensions disabled, abacus disabled, school Other and
frequency weekly, finalWeekly equals that same 75 times daysPerWeek. -/
theorem calculatePrice_baseWeekly_proportional :
    (∀ i : PricingInput,
      (calculatePrice i).baseWeekly = 75 * (i.daysPerWeek.toNat : ℚ)) ∧
    (∀ (d : DaysPerWeek) (t : TimeBlock) (c : Bool),
      (calculatePrice
          ⟨d, t, School.Other, BillingFrequency.weekly, false, false, c⟩).finalWeekly =
        75 * (d.toNat : ℚ)) := by
  constructor
  · intro i
    rcases i with ⟨d, t, s, f, e, a, c⟩
    revert d t s f e a c
    decide!
  · decide!

/-- C10: the current and the legacy calculatePrice variants agree on every
field they both output whenever extensions are enabled or the time block is
the standard one, the school is Other or daysPerWeek is at least 2, the
frequency is not year, and the abacus is disabled. -/
theorem calculatePrice_variants_agree :
    ∀ (d : DaysPerWeek) (t : TimeBlock) (s : School) (f : BillingFrequency) (e a c : Bool),
      (e = true ∨ t = TimeBlock.t4_6) →
      (s = School.Other ∨ 2 ≤ d.toNat) →
      f ≠ BillingFrequency.year →
      a = false →
      ((calculatePrice ⟨d, t, s, f, e, a, c⟩).baseWeekly =
          (Legacy.calculatePrice ⟨d, t, s, f⟩).baseWeekly ∧
        (calculatePrice ⟨d, t, s, f, e, a, c⟩).addOnWeekly =
          (Legacy.calculatePrice ⟨d, t, s, f⟩).addOnWeekly ∧
        (calculatePrice ⟨d, t, s, f, e, a, c⟩).schoolDiscountWeekly =
          (Legacy.calculatePrice ⟨d, t, s, f⟩).schoolDiscountWeekly ∧
        (calculatePrice ⟨d, t, s, f, e, a, c⟩).prepayDiscountWeekly =
          (Legacy.calculatePrice ⟨d, t, s, f⟩).prepayDiscountWeekly ∧
        (calculatePrice ⟨d, t, s, f, e, a, c⟩).finalWeekly =
          (Legacy.calculatePrice ⟨d, t, s, f⟩).finalWeekly ∧
        (calculatePrice ⟨d, t, s, f, e, a, c⟩).periodWeeks =
          (Legacy.calculatePrice ⟨d, t, s, f⟩).periodWeeks ∧
        (calculatePrice ⟨d, t, s, f, e, a, c⟩).totalForPeriod =
          (Legacy.calculatePrice ⟨d, t, s, f⟩).totalForPeriod) := by
  decide!

/-- Witness for C10 at a concrete input: 3 days, block 3-6, Searingtown,
3 months, extensions on, abacus off. -/
theorem calculatePrice_variants_agree_witness :
    (calculatePrice
        ⟨.d3, .t3_6, .Searingtown, .threeMonths, true, false, false⟩).baseWeekly =
      (Legacy.calculatePrice ⟨.d3, .t3_6, .Searingtown, .threeMonths⟩).baseWeekly ∧
    (calculatePrice
        ⟨.d3, .t3_6, .Searingtown, .threeMonths, true, false, false⟩).addOnWeekly =
      (Legacy.calculatePrice ⟨.d3, .t3_6, .Searingtown, .threeMonths⟩).addOnWeekly ∧
    (calculatePrice
        ⟨.d3, .t3_6, .Searingtown, .threeMonths, true, false, false⟩).schoolDiscountWeekly =
      (Legacy.calculatePrice ⟨.d3, .t3_6, .Searingtown, .threeMonths⟩).schoolDiscountWeekly ∧
    (calculatePrice
        ⟨.d3, .t3_6, .Searingtown, .threeMonths, true, false, false⟩).prepayDiscountWeekly =
      (Legacy.calculatePrice ⟨.d3, .t3_6, .Searingtown, .threeMonths⟩).prepayDiscountWeekly ∧
    (calculatePrice
        ⟨.d3, .t3_6, .Searingtown, .threeMonths, true, false, false⟩).finalWeekly =
      (Legacy.calculatePrice ⟨.d3, .t3_6, .Searingtown, .threeMonths⟩).finalWeekly ∧
    (calculatePrice
        ⟨.d3, .t3_6, .Searingtown, .threeMonths, true, false, false⟩).periodWeeks =
      (Legacy.calculatePrice ⟨.d3, .t3_6, .Searingtown, .threeMonths⟩).periodWeeks ∧
    (calculatePrice
        ⟨.d3, .t3_6, .Searingtown, .threeMonths, true, false, false⟩).totalForPeriod =
      (Legacy.calculatePrice ⟨.d3, .t3_6, .Searingtown, .threeMonths⟩).totalForPeriod :=
  calculatePrice_variants_agree
    .d3 .t3_6 .Searingtown .threeMonths true false false
    (Or.inl rfl) (Or.inr (by decide)) (by decide) rfl
